import Mathlib

/-!
# Verification of the OGC EDR Part 3 profile generation engine

Shallow embedding of `src/create_profile.py`, `src/query_types.py` and the
relevant parts of `src/templates.py`, together with theorems settling the
frozen claims about the requirement synthesizer, test synthesizer,
cross-reference assembler (anchor ids), HTTP API synthesizer and the main
generation run.

Python strings are modelled as Lean `String`; Python `dict`s that preserve
insertion order are modelled as association lists (`List (String × α)`).
-/

set_option maxHeartbeats 1600000

namespace OgcEdr

/-! ## Python string primitives

The generator relies on `str.replace`, `str.split`, the `in` containment
operator, `str.lower`, `str.title` and `str.format`.  Each is embedded as a
structurally recursive (hence kernel-computable) function on `List Char`.
`replace` and `split` consume a number of characters per step that depends on
the pattern length, so they are driven by a fuel argument that the wrappers
instantiate with `length + 1`, which is always sufficient. -/

/-- Python `sub in s` on character lists: `containsSub s.data sub.data`. -/
def containsSub : List Char → List Char → Bool
  | [], pat => pat.isEmpty
  | c :: rest, pat => pat.isPrefixOf (c :: rest) || containsSub rest pat

/-- Python `sub in s` (substring containment). -/
def pyIn (sub s : String) : Bool := containsSub s.data sub.data

/-- Fuel-driven core of Python `str.replace(old, new)`: replaces every
non-overlapping occurrence of `old`, scanning left to right.  The `0` fuel
case is never reached when the fuel exceeds the length of the subject. -/
def replaceFuel (old new : List Char) : Nat → List Char → List Char
  | 0, l => l
  | _ + 1, [] => []
  | fuel + 1, c :: rest =>
    if !old.isEmpty && old.isPrefixOf (c :: rest) then
      new ++ replaceFuel old new fuel ((c :: rest).drop old.length)
    else
      c :: replaceFuel old new fuel rest

/-- Python `s.replace(old, new)`.  The generator never calls it with an empty
`old` (Python would interleave `new` everywhere in that case). -/
def pyReplace (s old new : String) : String :=
  ⟨replaceFuel old.data new.data (s.data.length + 1) s.data⟩

/-- Fuel-driven core of Python `str.split(sep)` for a non-empty separator:
the list of segments between consecutive non-overlapping occurrences. -/
def splitFuel (sep : List Char) : Nat → List Char → List (List Char)
  | 0, l => [l]
  | _ + 1, [] => [[]]
  | fuel + 1, c :: rest =>
    if !sep.isEmpty && sep.isPrefixOf (c :: rest) then
      [] :: splitFuel sep fuel ((c :: rest).drop sep.length)
    else
      match splitFuel sep fuel rest with
      | [] => [[c]]
      | s :: ss => (c :: s) :: ss

/-- Python `s.split(sep)` for a non-empty separator. -/
def pySplit (s sep : String) : List String :=
  (splitFuel sep.data (s.data.length + 1) s.data).map String.mk

/-- Python `str.lower` (the generator only feeds it ASCII format labels). -/
def pyLower (s : String) : String := ⟨s.data.map Char.toLower⟩

/-- Core of Python `str.title`: the Boolean records whether the previous
character was alphabetic (cased). -/
def titleCore : Bool → List Char → List Char
  | _, [] => []
  | prevAlpha, c :: rest =>
    (if prevAlpha then c.toLower else c.toUpper) :: titleCore c.isAlpha rest

/-- Python `str.title` (ASCII behaviour, which covers the generator's use). -/
def pyTitle (s : String) : String := ⟨titleCore false s.data⟩

/-- Core of Python `template.format(collection_name=v)` as used by the
generator: `\x7b\x7b`/`\x7d\x7d` unescape to single braces and the single
field `\x7bcollection_name\x7d` is substituted by `v` (the substituted value
is not rescanned, as in Python).  The rule tables contain no other fields. -/
def formatCore (v : List Char) : List Char → List Char
  | [] => []
  | '\x7b' :: '\x7b' :: rest => '\x7b' :: formatCore v rest
  | '\x7d' :: '\x7d' :: rest => '\x7d' :: formatCore v rest
  | '\x7b' :: 'c' :: 'o' :: 'l' :: 'l' :: 'e' :: 'c' :: 't' :: 'i' :: 'o' :: 'n' :: '_' ::
      'n' :: 'a' :: 'm' :: 'e' :: '\x7d' :: rest => v ++ formatCore v rest
  | c :: rest => c :: formatCore v rest

/-- Python `template.format(collection_name=value)` for the rule tables. -/
def pyFormat (template value : String) : String := ⟨formatCore value.data template.data⟩

/-! ## Data model (`profile_config.yml` records) -/

/-- One collection of the profile configuration. -/
structure Collection where
  name : String
  query_types : List String
  formats : List String
deriving DecidableEq

/-- One pub/sub filter record (Python dict keys `name`/`description`/`type`;
the last is called `ftype` here because `type` is reserved in Lean). -/
structure FilterSpec where
  name : String
  description : String
  ftype : String
deriving DecidableEq

/-- A requirement record as produced by the synthesizer. -/
structure Requirement where
  id : String
  statement : String
  parts : List String
deriving DecidableEq

/-- An abstract test record as produced by the synthesizer. -/
structure AbstractTest where
  id : String
  req_id : String
  steps : List String
deriving DecidableEq

/-! ## `query_types.py`: the two query-type rule tables and the format table -/

/-- Statement/parts templates of one query type (`QUERY_TYPE_REQUIREMENTS`
values). -/
structure QTTemplate where
  statement : String
  parts : List String
deriving DecidableEq

/-- `QUERY_TYPE_REQUIREMENTS` from `query_types.py` (insertion order kept). -/
def QUERY_TYPE_REQUIREMENTS : List (String × QTTemplate) :=
  [("items",
    { statement := "{collection_name} items query support",
      parts :=
        ["The service SHALL provide a /collections/{collection_name}/items endpoint",
         "The Items query SHALL return GeoJSON FeatureCollection formatted data",
         "The Items query SHALL support GET method",
         "Each Feature SHALL contain the required properties defined in the profile",
         "The service SHALL provide a /collections/{collection_name}/items/\x7b\x7bfeatureId\x7d\x7d endpoint for individual items"] }),
   ("position",
    { statement := "{collection_name} position query support",
      parts :=
        ["The service SHALL provide a /collections/{collection_name}/position endpoint",
         "The Position query SHALL accept coords parameter with POINT geometry",
         "The Position query SHALL support datetime parameter",
         "The response SHALL return data for the specified position"] }),
   ("area",
    { statement := "{collection_name} area query support",
      parts :=
        ["The service SHALL provide a /collections/{collection_name}/area endpoint",
         "The Area query SHALL accept coords parameter with POLYGON or MULTIPOLYGON geometry",
         "The Area query SHALL support datetime parameter",
         "The response SHALL return data within the specified area"] }),
   ("cube",
    { statement := "{collection_name} cube query support",
      parts :=
        ["The service SHALL provide a /collections/{collection_name}/cube endpoint",
         "The Cube query SHALL accept bbox parameter",
         "The Cube query SHALL support datetime and z parameters",
         "The response SHALL return data within the specified cube"] }),
   ("trajectory",
    { statement := "{collection_name} trajectory query support",
      parts :=
        ["The service SHALL provide a /collections/{collection_name}/trajectory endpoint",
         "The Trajectory query SHALL accept coords parameter with LINESTRING geometry",
         "The Trajectory query SHALL support datetime parameter",
         "The response SHALL return data along the specified trajectory"] }),
   ("corridor",
    { statement := "{collection_name} corridor query support",
      parts :=
        ["The service SHALL provide a /collections/{collection_name}/corridor endpoint",
         "The Corridor query SHALL accept coords and corridor-width parameters",
         "The Corridor query SHALL support datetime parameter",
         "The response SHALL return data within the specified corridor"] }),
   ("locations",
    { statement := "{collection_name} locations query support",
      parts :=
        ["The service SHALL provide a /collections/{collection_name}/locations endpoint",
         "The Locations query SHALL accept locationId parameter",
         "The Locations query SHALL support datetime parameter",
         "The response SHALL return data for the specified location"] }),
   ("instances",
    { statement := "{collection_name} instances query support",
      parts :=
        ["The service SHALL provide a /collections/{collection_name}/instances endpoint",
         "The Instances endpoint SHALL list available time instances",
         "Each instance SHALL support the same query types as the collection"] })]

/-- `QUERY_TYPE_TEST_STEPS` from `query_types.py` (insertion order kept; the
iteration order of its keys matters in `generate_suggested_tests`). -/
def QUERY_TYPE_TEST_STEPS : List (String × List String) :=
  [("items",
    ["Send GET request to /collections/{collection_name}/items",
     "Verify response is valid GeoJSON FeatureCollection",
     "Verify response contains required properties",
     "Send GET request to /collections/{collection_name}/items/\x7b\x7bfeatureId\x7d\x7d",
     "Verify response is valid GeoJSON Feature"]),
   ("position",
    ["Send GET request to /collections/{collection_name}/position with coords parameter",
     "Verify response contains data for the specified position",
     "Verify datetime parameter is supported"]),
   ("area",
    ["Send GET request to /collections/{collection_name}/area with coords parameter",
     "Verify response contains data within the specified area",
     "Verify POLYGON and MULTIPOLYGON geometries are supported"]),
   ("cube",
    ["Send GET request to /collections/{collection_name}/cube with bbox parameter",
     "Verify response contains data within the specified cube",
     "Verify datetime and z parameters are supported"]),
   ("trajectory",
    ["Send GET request to /collections/{collection_name}/trajectory with coords parameter",
     "Verify response contains data along the trajectory",
     "Verify LINESTRING geometry is supported"]),
   ("corridor",
    ["Send GET request to /collections/{collection_name}/corridor with coords and corridor-width parameters",
     "Verify response contains data within the corridor",
     "Verify datetime parameter is supported"]),
   ("locations",
    ["Send GET request to /collections/{collection_name}/locations",
     "Verify response lists available locations",
     "Send GET request to /collections/{collection_name}/locations/\x7b\x7blocationId\x7d\x7d",
     "Verify response contains data for the specified location"]),
   ("instances",
    ["Send GET request to /collections/{collection_name}/instances",
     "Verify response lists available time instances",
     "Verify each instance supports the collection's query types"])]

/-- `FORMAT_REQUIREMENTS` from `query_types.py`. -/
def FORMAT_REQUIREMENTS : List (String × List String) :=
  [("geojson",
    ["A format with the label json SHALL provide GeoJSON output",
     "The GeoJSON output SHALL include standard GeoJSON properties: type, features, geometry, properties, and id",
     "The GeoJSON output SHALL include pagination metadata: numberMatched, numberReturned, and links array"]),
   ("coveragejson",
    ["A format with the label covjson SHALL provide CoverageJSON output conforming to the CoverageJSON specification"]),
   ("csv",
    ["A format with the label csv SHALL provide CSV output with appropriate headers"]),
   ("netcdf",
    ["A format with the label netcdf SHALL provide NetCDF output conforming to CF conventions"]),
   ("grib",
    ["A format with the label grib SHALL provide GRIB2 output conforming to WMO GRIB2 specification"]),
   ("grib2",
    ["A format with the label grib SHALL provide GRIB2 output conforming to WMO GRIB2 specification"]),
   ("zarr",
    ["A format with the label zarr SHALL provide Zarr output conforming to Zarr specification"])]

/-! ## `create_profile.py`: requirement and test generation logic -/

/-- `generate_query_type_requirement` (`create_profile.py:452`). -/
def generate_query_type_requirement (collection_name query_type : String) :
    Option Requirement :=
  match QUERY_TYPE_REQUIREMENTS.lookup query_type with
  | none => none
  | some template =>
    some { id := "data-query-" ++ query_type ++ "-" ++ pyReplace collection_name "_" "-",
           statement := pyFormat template.statement collection_name,
           parts := template.parts.map (fun part => pyFormat part collection_name) }

/-- The inline default step list of `generate_query_type_test`
(`create_profile.py:467`). -/
def default_query_type_steps (query_type : String) : List String :=
  ["Verify " ++ query_type ++ " query is implemented",
   "Test basic functionality",
   "Verify conformance"]

/-- `generate_query_type_test` (`create_profile.py:465`). -/
def generate_query_type_test (collection_name query_type req_id : String) :
    AbstractTest :=
  let steps_template :=
    (QUERY_TYPE_TEST_STEPS.lookup query_type).getD (default_query_type_steps query_type)
  { id := req_id,
    req_id := req_id,
    steps := steps_template.map (fun step => pyFormat step collection_name) }

/-- `generate_format_requirement` (`create_profile.py:479`). -/
def generate_format_requirement (collection_name : String) (formats : List String) :
    Requirement :=
  let format_parts := formats.foldl
    (fun format_parts fmt =>
      let fmt_lower := pyLower fmt
      match FORMAT_REQUIREMENTS.lookup fmt_lower with
      | some clauses => format_parts ++ clauses
      | none => format_parts ++ ["A format with the label " ++ fmt_lower ++ " SHALL be supported"])
    ["Collection " ++ collection_name ++ " SHALL support the following formats:"]
  { id := "output-format-" ++ pyReplace collection_name "_" "-",
    statement := "Output format support for " ++ collection_name,
    parts := format_parts }

/-- The header clause of a format requirement (`create_profile.py:481`). -/
def format_header (collection_name : String) : String :=
  "Collection " ++ collection_name ++ " SHALL support the following formats:"

/-- The clauses contributed by one format label inside
`generate_format_requirement`: the registered clause list of the lowercased
label, or the single generic fallback clause naming the lowercased label. -/
def format_clauses (fmt : String) : List String :=
  match FORMAT_REQUIREMENTS.lookup (pyLower fmt) with
  | some clauses => clauses
  | none => ["A format with the label " ++ pyLower fmt ++ " SHALL be supported"]

/-- The fixed leading requirement of `generate_suggested_requirements`
(`create_profile.py:499`). -/
def openapi_requirement : Requirement :=
  { id := "openapi",
    statement := "OpenAPI specification",
    parts :=
      ["The service SHALL provide an OpenAPI 3.0 specification",
       "The OpenAPI SHALL document all collection endpoints",
       "The OpenAPI SHALL include GeoJSON schemas"] }

/-- The per-collection metadata requirement of
`generate_suggested_requirements` (`create_profile.py:513`). -/
def collection_requirement (coll : Collection) : Requirement :=
  { id := "collection-" ++ pyReplace coll.name "_" "-",
    statement := coll.name ++ " collection metadata",
    parts :=
      ["The service SHALL provide a /collections/" ++ coll.name ++ " endpoint",
       "The endpoint SHALL return collection metadata including extent and available query types",
       "The response SHALL conform to OGC API - EDR collection schema"] }

/-- The per-collection AsyncAPI requirement of
`generate_suggested_requirements` (`create_profile.py:538`). -/
def asyncapi_requirement (coll : Collection) : Requirement :=
  { id := "asyncapi-" ++ pyReplace coll.name "_" "-",
    statement := "AsyncAPI specification and PubSub messaging for " ++ coll.name,
    parts :=
      ["The service SHALL provide an AsyncAPI 3.0 specification",
       "The AsyncAPI SHALL define " ++ coll.name ++ " notification channels",
       "The service SHALL support AMQP protocol",
       "The service SHALL publish messages to collections/" ++ coll.name ++ "/items/# channel",
       "Messages SHALL conform to the AsyncAPI schema"] }

/-- The filters requirement of `generate_suggested_requirements`
(`create_profile.py:552`). -/
def filters_requirement (filters : List FilterSpec) : Requirement :=
  { id := "filters",
    statement := "Filter support",
    parts :=
      ["The service SHALL support subscription filters",
       "The service SHALL support filtering by " ++
         String.intercalate ", " (filters.map (fun f => f.name)),
       "Filters SHALL be defined in x-ogc-subscription extension"] }

/-- `generate_suggested_requirements` (`create_profile.py:497`): openapi
requirement, collection requirements, query-type requirements (recognized
query types only; `None` results are dropped), format requirements, optional
asyncapi requirements, optional filters requirement — in that order. -/
def generate_suggested_requirements (collections : List Collection)
    (include_asyncapi : Bool) (filters : List FilterSpec) : List Requirement :=
  [openapi_requirement]
  ++ collections.map collection_requirement
  ++ collections.flatMap
      (fun coll => coll.query_types.filterMap
        (fun qt => generate_query_type_requirement coll.name qt))
  ++ collections.map (fun coll => generate_format_requirement coll.name coll.formats)
  ++ (if include_asyncapi then collections.map asyncapi_requirement else [])
  ++ (if filters.isEmpty then [] else [filters_requirement filters])

/-- The fixed `test_templates` table of `generate_suggested_tests`
(`create_profile.py:568`). -/
def test_templates : List (String × List String) :=
  [("openapi",
    ["Send GET request to /openapi",
     "Verify response is valid OpenAPI 3.0 document",
     "Verify all collection endpoints are documented",
     "Verify GeoJSON schemas are defined"]),
   ("asyncapi",
    ["Send GET request to /asyncapi.yaml",
     "Verify response is valid AsyncAPI 3.0 document",
     "Verify channels are defined for notifications",
     "Verify AMQP server is configured",
     "Connect to AMQP broker",
     "Subscribe to notification channel",
     "Verify messages are received",
     "Verify messages conform to AsyncAPI schema"]),
   ("filters",
    ["Verify x-ogc-subscription extension exists in AsyncAPI",
     "Verify all filters are documented",
     "Create subscription with filter",
     "Verify only matching messages are received"])]

/-- The inline default step list of `generate_suggested_tests`
(`create_profile.py:604`). -/
def default_test_steps (req_id : String) : List String :=
  ["Verify requirement " ++ req_id ++ " is implemented",
   "Test basic functionality",
   "Verify conformance"]

/-- The body of the per-requirement loop of `generate_suggested_tests`
(`create_profile.py:593`): the `for qt ... break / else` scan over
`QUERY_TYPE_TEST_STEPS.keys()` is the first key whose `data-query-{qt}-`
marker is a substring of the requirement id; on a hit the collection name is
segment `[1]` of `id.split(marker)` with dashes restored to underscores. -/
def suggested_test_for (req : Requirement) : AbstractTest :=
  match (QUERY_TYPE_TEST_STEPS.map Prod.fst).find?
      (fun qt => pyIn ("data-query-" ++ qt ++ "-") req.id) with
  | some qt =>
    let collection_name :=
      pyReplace ((pySplit req.id ("data-query-" ++ qt ++ "-")).getD 1 "") "-" "_"
    generate_query_type_test collection_name qt req.id
  | none =>
    let base_id := if pyIn "-" req.id then (pySplit req.id "-").getD 0 "" else req.id
    { id := req.id,
      req_id := req.id,
      steps := (test_templates.lookup base_id).getD (default_test_steps req.id) }

/-- `generate_suggested_tests` (`create_profile.py:565`): one test is
appended per requirement, in input order. -/
def generate_suggested_tests (requirements : List Requirement) : List AbstractTest :=
  requirements.map suggested_test_for

/-! ## Cross-reference assembler: anchor ids

Each `create_*` writer embeds an anchor id at the head of the generated
file; the functions below are those anchor computations
(`create_profile.py:122`, `140`, `160`, `178`).  `base.name` is the profile
name. -/

/-- Anchor of `create_requirement`: only path separators are replaced. -/
def requirement_anchor (profile_name req_id : String) : String :=
  pyReplace ("req_" ++ profile_name ++ "_" ++ req_id) "/" "_"

/-- Anchor of `create_abstract_test`: only path separators are replaced. -/
def abstract_test_anchor (profile_name test_id : String) : String :=
  pyReplace ("ats_" ++ profile_name ++ "_" ++ test_id) "/" "_"

/-- Anchor of `create_requirements_class`: only dashes are replaced. -/
def requirements_class_anchor (profile_name class_name : String) : String :=
  pyReplace ("req_class_" ++ profile_name ++ "_" ++ class_name) "-" "_"

/-- Anchor of `create_conformance_class`: every dash becomes an underscore,
then every occurrence of `_class_` becomes `_class-`. -/
def conformance_class_anchor (profile_name class_name : String) : String :=
  pyReplace (pyReplace ("ats_class-" ++ profile_name ++ "_" ++ class_name) "-" "_")
    "_class_" "_class-"

/-! ## `create_openapi` (`create_profile.py:199`): HTTP API synthesizer

Python builds two insertion-ordered dicts `paths` and `schemas`; they are
modelled as association lists with dict-update semantics (`dictInsert`).
Response bodies are nested constant dicts; only their description string is
kept, which is the only data they carry. -/

/-- One entry of a `parameters` list (Python keys `name`, `in`, `required`;
a missing `required` key is modelled as `false`). -/
structure ApiParam where
  name : String
  location : String
  required : Bool
deriving DecidableEq

/-- The single `get` operation of a path item.  `parameters := none` models a
path item whose `get` dict has no `parameters` key at all. -/
structure ApiOperation where
  summary : String
  parameters : Option (List ApiParam)
  response_description : String
deriving DecidableEq

/-- The `x-ogc-edr-{profile}-pubsub` extension attached to a feature schema
when AsyncAPI is included. -/
structure PubSubExt where
  key : String
  asyncapi_ref : String
  channel : String
deriving DecidableEq

/-- A collection's GeoJSON feature schema: one string-typed property per
declared global property name, plus the optional pub/sub extension. -/
structure FeatureSchema where
  property_names : List String
  pubsub : Option PubSubExt
deriving DecidableEq

/-- The OpenAPI document (fields of the final `spec` dict that are not
constant boilerplate are kept verbatim). -/
structure OpenapiSpec where
  openapi : String
  title : String
  version : String
  description : String
  server_url : String
  paths : List (String × ApiOperation)
  schemas : List (String × FeatureSchema)
deriving DecidableEq

/-- Python dict assignment `d[k] = v` on an insertion-ordered dict: an
existing key is updated in place, a new key is appended. -/
def dictInsert {α : Type} (d : List (String × α)) (k : String) (v : α) :
    List (String × α) :=
  if (d.lookup k).isSome then d.map (fun p => if p.1 = k then (k, v) else p)
  else d ++ [(k, v)]

/-- `create_openapi` (`create_profile.py:199`): per collection a metadata
path, then per query type the `items`/`locations`/generic three-way rule,
then one feature schema entry keyed `{title-cased name minus underscores}Feature`. -/
def create_openapi (profile_name : String) (collections : List Collection)
    (properties : List String) (include_asyncapi : Bool) : OpenapiSpec :=
  let st := collections.foldl
    (fun (st : List (String × ApiOperation) × List (String × FeatureSchema)) coll =>
      let collection_name := coll.name
      let paths := dictInsert st.1 ("/collections/" ++ collection_name)
        { summary := "Get " ++ collection_name ++ " metadata",
          parameters := none,
          response_description := "Collection metadata" }
      let paths := coll.query_types.foldl
        (fun paths qt =>
          if qt = "items" then
            let paths := dictInsert paths ("/collections/" ++ collection_name ++ "/items")
              { summary := "Query " ++ collection_name ++ " items",
                parameters := some [⟨"datetime", "query", false⟩, ⟨"bbox", "query", false⟩],
                response_description := "GeoJSON FeatureCollection" }
            dictInsert paths
              ("/collections/" ++ collection_name ++ "/items/\x7bfeatureId\x7d")
              { summary := "Get specific " ++ collection_name ++ " item",
                parameters := some [⟨"featureId", "path", true⟩],
                response_description := "GeoJSON Feature" }
          else if qt = "locations" then
            let paths := dictInsert paths
              ("/collections/" ++ collection_name ++ "/locations")
              { summary := "Get available locations for " ++ collection_name,
                parameters := none,
                response_description := "GeoJSON FeatureCollection of available locations" }
            dictInsert paths
              ("/collections/" ++ collection_name ++ "/locations/\x7blocationId\x7d")
              { summary := "Query " ++ collection_name ++ " data by location",
                parameters := some [⟨"locationId", "path", true⟩, ⟨"datetime", "query", false⟩],
                response_description := "Query results" }
          else
            dictInsert paths ("/collections/" ++ collection_name ++ "/" ++ qt)
              { summary := "Query " ++ collection_name ++ " by " ++ qt,
                parameters := some [⟨"coords", "query", true⟩, ⟨"datetime", "query", false⟩],
                response_description := "Query results" })
        paths
      let feature_schema : FeatureSchema :=
        { property_names := properties,
          pubsub :=
            if include_asyncapi then
              some { key := "x-ogc-edr-" ++ profile_name ++ "-pubsub",
                     asyncapi_ref := "/asyncapi.yaml",
                     channel := collection_name ++ "_notifications" }
            else none }
      let schemas := dictInsert st.2
        (pyReplace (pyTitle collection_name) "_" "" ++ "Feature") feature_schema
      (paths, schemas))
    ([], [])
  { openapi := "3.0.3",
    title := pyTitle (pyReplace profile_name "_" " ") ++ " Profile API",
    version := "1.0.0",
    description := "OGC API - EDR " ++ pyTitle (pyReplace profile_name "_" " ") ++ " Profile",
    server_url := "http://localhost:5000",
    paths := st.1,
    schemas := st.2 }

/-! ## `main` (`create_profile.py:735`): the generation run

For error-handling claims the run is modelled over a raw configuration
document in which every field a YAML file may omit is an `Option`, mirroring
Python's `KeyError` on a missing dict key.  `mainRun` returns the artifacts
written (in emission order) before the run either completes or raises. -/

/-- A raw collection record from a loaded configuration file. -/
structure CollDoc where
  name : Option String
  query_types : Option (List String)
  formats : Option (List String)
deriving DecidableEq

/-- A raw requirement record from a loaded configuration file. -/
structure ReqDoc where
  id : Option String
  statement : Option String
  parts : Option (List String)
deriving DecidableEq

/-- A raw test record from a loaded configuration file. -/
structure TestDoc where
  id : Option String
  req_id : Option String
  steps : Option (List String)
deriving DecidableEq

/-- A raw filter record from a loaded configuration file. -/
structure FilterDoc where
  name : Option String
  description : Option String
  ftype : Option String
deriving DecidableEq

/-- A raw configuration document (each top-level key optional). -/
structure ConfigDoc where
  profile_name : Option String
  profile_title : Option String
  collections : Option (List CollDoc)
  properties : Option (List String)
  filters : Option (List FilterDoc)
  include_asyncapi : Option Bool
  requirements : Option (List ReqDoc)
  tests : Option (List TestDoc)
deriving DecidableEq

/-- The artifacts `main` writes, in the order it writes them. -/
inductive Artifact where
  | directories
  | requirementFile (id : String)
  | requirementsClassFile
  | abstractTestFile (id : String)
  | conformanceClassFile
  | openapiFile
  | asyncapiFile
  | mainAdocFile
  | sectionFiles
  | supportingFiles
  | configFile
deriving DecidableEq

/-- The requirement-file loop of `main` (`create_profile.py:770`): each
iteration reads `id`, `statement` and `parts` of one record and writes one
file; a missing key raises after the earlier files were already written. -/
def emitRequirementFiles : List ReqDoc → List Artifact × Bool
  | [] => ([], true)
  | r :: rest =>
    match r.id, r.statement, r.parts with
    | some i, some _, some _ =>
      let (arts, ok) := emitRequirementFiles rest
      (Artifact.requirementFile i :: arts, ok)
    | _, _, _ => ([], false)

/-- The abstract-test loop of `main` (`create_profile.py:776`). -/
def emitTestFiles : List TestDoc → List Artifact × Bool
  | [] => ([], true)
  | t :: rest =>
    match t.id, t.req_id, t.steps with
    | some i, some _, some _ =>
      let (arts, ok) := emitTestFiles rest
      (Artifact.abstractTestFile i :: arts, ok)
    | _, _, _ => ([], false)

/-- Whether `create_openapi` can read every field it needs (`name`,
`query_types` of each collection); it writes its single file only at the
end, so a missing key aborts it without emitting anything. -/
def openapiFieldsOk (colls : List CollDoc) : Bool :=
  colls.all (fun c => c.name.isSome && c.query_types.isSome)

/-- Whether `create_asyncapi` can read every field it needs (`name` of each
collection, all three fields of each filter). -/
def asyncapiFieldsOk (colls : List CollDoc) (filts : List FilterDoc) : Bool :=
  colls.all (fun c => c.name.isSome) &&
  filts.all (fun f => f.name.isSome && f.description.isSome && f.ftype.isSome)

/-- Whether `create_sections` (and the README of `create_supporting_files`)
can read every field it needs: `name`, `query_types` and `formats` of each
collection — the first and only place `formats` is ever read in the run. -/
def sectionsFieldsOk (colls : List CollDoc) : Bool :=
  colls.all (fun c => c.name.isSome && c.query_types.isSome && c.formats.isSome)

/-- `main` after a configuration has been loaded from file
(`create_profile.py:751`–`802`): the eight top-level keys are read first
(before anything is written), then artifacts are emitted strictly in program
order; the `Option String` is the error of the step that raised, if any. -/
def mainRun (cfg : ConfigDoc) : List Artifact × Option String :=
  match cfg.profile_name, cfg.profile_title, cfg.collections, cfg.properties,
      cfg.filters, cfg.include_asyncapi, cfg.requirements, cfg.tests with
  | some _, some _, some colls, some _, some filts, some asy, some reqs, some tsts =>
    let acc := [Artifact.directories]
    let (reqArts, reqOk) := emitRequirementFiles reqs
    let acc := acc ++ reqArts
    if !reqOk then (acc, some "KeyError in requirement record") else
    let acc := acc ++ [Artifact.requirementsClassFile]
    let (testArts, testOk) := emitTestFiles tsts
    let acc := acc ++ testArts
    if !testOk then (acc, some "KeyError in test record") else
    let acc := acc ++ [Artifact.conformanceClassFile]
    if !openapiFieldsOk colls then (acc, some "KeyError in create_openapi") else
    let acc := acc ++ [Artifact.openapiFile]
    if asy && !asyncapiFieldsOk colls filts then
      (acc, some "KeyError in create_asyncapi") else
    let acc := acc ++ (if asy then [Artifact.asyncapiFile] else [])
    let acc := acc ++ [Artifact.mainAdocFile]
    if !sectionsFieldsOk colls then (acc, some "KeyError in create_sections") else
    let acc := acc ++ [Artifact.sectionFiles]
    let acc := acc ++ [Artifact.supportingFiles]
    (acc ++ [Artifact.configFile], none)
  | _, _, _, _, _, _, _, _ => ([], some "KeyError: missing top-level configuration field")

/-! ## Spec-side test synthesis (for the test-dispatch claim)

`spec_test_for` renders the corrected dispatch rule in the spec's own
vocabulary, independently of Python's `split`/`replace` idioms: scan the
rule-table keys in order for one whose `data-query-{qt}-` marker occurs in
the id; the collection name is the segment after the first occurrence of the
marker, up to the next occurrence, with each dash turned back into an
underscore; otherwise the id's token before its first dash selects a fixed
template, with a three-step generic fallback. -/

/-- The suffix of `l` after the first occurrence of `pat` (empty if none). -/
def afterFirstOcc (pat : List Char) : List Char → List Char
  | [] => []
  | c :: rest =>
    if pat.isPrefixOf (c :: rest) then (c :: rest).drop pat.length
    else afterFirstOcc pat rest

/-- The longest prefix of `l` before any occurrence of the non-empty `pat`. -/
def beforeNextOcc (pat : List Char) : List Char → List Char
  | [] => []
  | c :: rest =>
    if pat.isPrefixOf (c :: rest) then [] else c :: beforeNextOcc pat rest

/-- A collection with every query type that the Query-Type Rule Table does
not know removed (used to state the silent-omission claim). -/
def recognized_only (c : Collection) : Collection :=
  { c with query_types := c.query_types.filter (fun q => (QUERY_TYPE_REQUIREMENTS.lookup q).isSome) }

/-- Test synthesis for one requirement, written from the (corrected) spec
wording rather than from the Python source. -/
def spec_test_for (req : Requirement) : AbstractTest :=
  match (QUERY_TYPE_TEST_STEPS.map Prod.fst).find?
      (fun qt => containsSub req.id.data ("data-query-" ++ qt ++ "-").data) with
  | some qt =>
    let marker := ("data-query-" ++ qt ++ "-").data
    let seg := beforeNextOcc marker (afterFirstOcc marker req.id.data)
    let collection_name : String := ⟨seg.map (fun c => if c = '-' then '_' else c)⟩
    { id := req.id,
      req_id := req.id,
      steps := ((QUERY_TYPE_TEST_STEPS.lookup qt).getD (default_query_type_steps qt)).map
        (fun step => pyFormat step collection_name) }
  | none =>
    let base_id : String := ⟨req.id.data.takeWhile (fun c => c ≠ '-')⟩
    { id := req.id,
      req_id := req.id,
      steps := (test_templates.lookup base_id).getD (default_test_steps req.id) }

/-! ## Shared lemmas -/

/-- Both id fields of a synthesized test are the requirement's id, in every
branch of the dispatch. -/
theorem suggested_test_for_id (req : Requirement) :
    (suggested_test_for req).id = req.id ∧ (suggested_test_for req).req_id = req.id := by
  rcases h : (QUERY_TYPE_TEST_STEPS.map Prod.fst).find?
      (fun qt => pyIn ("data-query-" ++ qt ++ "-") req.id) with _ | qt
  · simp [suggested_test_for, h]
  · simp [suggested_test_for, h, generate_query_type_test]

/-- Left cancellation for string concatenation. -/
theorem str_append_cancel_left {a b c : String} (h : a ++ b = a ++ c) : b = c := by
  apply String.ext
  have hd := congrArg String.data h
  simp only [String.data_append] at hd
  exact List.append_cancel_left hd

/-- A `filter` by a predicate that kills exactly the elements `filterMap`
drops can be folded into the `filterMap`. -/
theorem filterMap_filter_eq {α β : Type} (p : α → Bool) (g : α → Option β)
    (hg : ∀ x, p x = false → g x = none) :
    ∀ l : List α, (l.filter p).filterMap g = l.filterMap g := by
  intro l
  induction l with
  | nil => rfl
  | cons x xs ih =>
    cases hp : p x
    · simp [List.filter_cons, hp, List.filterMap_cons, hg x hp, ih]
    · simp [List.filter_cons, hp, List.filterMap_cons, ih]

/-- The fold of `generate_format_requirement` appends, per label, exactly
the clauses of `format_clauses`. -/
theorem format_foldl (fmts : List String) :
    ∀ acc : List String,
      fmts.foldl (fun format_parts fmt =>
        let fmt_lower := pyLower fmt
        match FORMAT_REQUIREMENTS.lookup fmt_lower with
        | some clauses => format_parts ++ clauses
        | none => format_parts ++
            ["A format with the label " ++ fmt_lower ++ " SHALL be supported"]) acc
      = acc ++ fmts.flatMap format_clauses := by
  induction fmts with
  | nil => intro acc; simp
  | cons f fs ih =>
    intro acc
    rw [List.foldl_cons, ih, List.flatMap_cons]
    cases h : FORMAT_REQUIREMENTS.lookup (pyLower f) <;>
      simp [format_clauses, h, List.append_assoc]

/-- Structure of the parts of a format requirement: header clause first,
then the per-label clauses in label order. -/
theorem generate_format_requirement_parts (name : String) (fmts : List String) :
    (generate_format_requirement name fmts).parts =
      format_header name :: fmts.flatMap format_clauses := by
  have h := format_foldl fmts [format_header name]
  simp only [generate_format_requirement, format_header] at h ⊢
  exact h

/-- Congruence for `flatMap`. -/
theorem flatMap_congr_mem {α β : Type} {f g : α → List β} (l : List α)
    (h : ∀ x ∈ l, f x = g x) : l.flatMap f = l.flatMap g := by
  induction l with
  | nil => rfl
  | cons x xs ih =>
    simp only [List.flatMap_cons]
    rw [h x (List.mem_cons_self x xs), ih (fun y hy => h y (List.mem_cons_of_mem x hy))]

/-- A value looked up in an association list is one of its values. -/
theorem lookup_mem_values {α : Type} [BEq α] [LawfulBEq α] {β : Type}
    {l : List (α × β)} {k : α} {b : β} (h : l.lookup k = some b) :
    b ∈ l.map Prod.snd := by
  obtain ⟨l₁, l₂, rfl, -⟩ := List.lookup_eq_some_iff.mp h
  simp

/-- Every label contributes at least one clause. -/
theorem format_clauses_ne_nil (f : String) : format_clauses f ≠ [] := by
  unfold format_clauses
  cases h : FORMAT_REQUIREMENTS.lookup (pyLower f) with
  | none => simp
  | some cl =>
    have hmem := lookup_mem_values h
    have hall : ∀ v ∈ FORMAT_REQUIREMENTS.map Prod.snd, v ≠ [] := by decide
    simpa using hall cl hmem

/-- `flatMap` over lists that are all non-empty has at least one element per
input element. -/
theorem length_le_length_flatMap {α β : Type} (g : α → List β) :
    ∀ l : List α, (∀ x ∈ l, g x ≠ []) → l.length ≤ (l.flatMap g).length := by
  intro l
  induction l with
  | nil => simp
  | cons x xs ih =>
    intro h
    have hx : 0 < (g x).length :=
      List.length_pos_iff_ne_nil.mpr (h x (List.mem_cons_self x xs))
    have hxs := ih (fun y hy => h y (List.mem_cons_of_mem x hy))
    simp only [List.flatMap_cons, List.length_cons, List.length_append]
    omega

/-- A true `isPrefixOf` pins down any initial segment of the subject. -/
theorem take_eq_of_isPrefixOf {p l : List Char} {n : Nat}
    (h : p.isPrefixOf l = true) (hn : n ≤ p.length) : l.take n = p.take n := by
  have hp : p <+: l := List.isPrefixOf_iff_prefix.mp h
  obtain ⟨t, rfl⟩ := hp
  rw [List.take_append_eq_append_take]
  have h0 : n - p.length = 0 := by omega
  simp [h0]

/-- Refute `isPrefixOf` by comparing the first two characters. -/
theorem isPrefixOf_eq_false_of_take2_ne {p l : List Char} (h2 : 2 ≤ p.length)
    (hne : l.take 2 ≠ p.take 2) : p.isPrefixOf l = false := by
  cases hpre : p.isPrefixOf l
  · rfl
  · exact absurd (take_eq_of_isPrefixOf hpre h2) hne

/-- The first two characters of an append are those of a long-enough left
part. -/
theorem take2_append {a : List Char} (b : List Char) (h : 2 ≤ a.length) :
    (a ++ b).take 2 = a.take 2 := by
  rw [List.take_append_eq_append_take]
  have h0 : 2 - a.length = 0 := by omega
  simp [h0]

/-- String version of `take2_append`. -/
theorem str_take2 (a s : String) (h : 2 ≤ a.data.length) :
    ((a ++ s) : String).data.take 2 = a.data.take 2 := by
  rw [String.data_append]
  exact take2_append _ h

/-- Length grows through an append on the right. -/
theorem le_length_append_left {n : Nat} {l : List Char} (t : List Char)
    (h : n ≤ l.length) : n ≤ (l ++ t).length := by
  rw [List.length_append]
  omega

/-- First two characters of a query-type requirement id. -/
theorem take2_qt_id (qt n : String) :
    (("data-query-" ++ qt ++ "-" ++ n) : String).data.take 2 = ['d', 'a'] := by
  have hlen : ("data-query-" : String).data.length = 11 := by decide
  have h1 : (2 : Nat) ≤ ("data-query-" : String).data.length := by omega
  have e2 : (("data-query-" ++ qt) : String).data.length = 11 + qt.data.length := by
    rw [String.data_append, List.length_append, hlen]
  have h2 : (2 : Nat) ≤ (("data-query-" ++ qt) : String).data.length := by omega
  have e3 : (("data-query-" ++ qt ++ "-") : String).data.length =
      11 + qt.data.length + 1 := by
    rw [String.data_append, List.length_append, e2]
    rfl
  have h3 : (2 : Nat) ≤ (("data-query-" ++ qt ++ "-") : String).data.length := by omega
  rw [str_take2 _ n h3, str_take2 _ "-" h2, str_take2 _ qt h1]
  decide

/-- A string is a prefix of itself extended on the right. -/
theorem str_isPrefixOf_append (a s : String) :
    a.data.isPrefixOf ((a ++ s) : String).data = true := by
  rw [String.data_append]
  exact List.isPrefixOf_iff_prefix.mpr (List.prefix_append _ _)

/-- The id produced by `generate_query_type_requirement` on a hit. -/
theorem qtreq_id_shape {name qt : String} {r : Requirement}
    (h : generate_query_type_requirement name qt = some r) :
    r.id = "data-query-" ++ qt ++ "-" ++ pyReplace name "_" "-" := by
  unfold generate_query_type_requirement at h
  cases hl : QUERY_TYPE_REQUIREMENTS.lookup qt <;> rw [hl] at h
  · exact absurd h (by simp)
  · have := Option.some.inj h
    rw [← this]

/-- A hit of `generate_query_type_requirement` means the key is in the
table. -/
theorem qtreq_key_mem {name qt : String} {r : Requirement}
    (h : generate_query_type_requirement name qt = some r) :
    qt ∈ QUERY_TYPE_REQUIREMENTS.map Prod.fst := by
  unfold generate_query_type_requirement at h
  cases hl : QUERY_TYPE_REQUIREMENTS.lookup qt
  · rw [hl] at h; exact absurd h (by simp)
  · have hs : (QUERY_TYPE_REQUIREMENTS.lookup qt).isSome := by rw [hl]; rfl
    obtain ⟨p, hp, hk⟩ := List.lookup_isSome_iff.mp hs
    have : qt = p.1 := by simpa using hk
    rw [this]
    exact List.mem_map_of_mem Prod.fst hp

/-! ## Claims C1, C2, C3 -/

/-- C1: the test synthesizer returns exactly one test per requirement, in
input order, and every produced test has `id = target_requirement_id =`
the requirement's id; no requirement is skipped, whatever its query type or
id prefix. -/
theorem claim_C1_one_test_per_requirement (requirements : List Requirement) :
    (generate_suggested_tests requirements).length = requirements.length ∧
    (generate_suggested_tests requirements).map (fun t => (t.id, t.req_id)) =
      requirements.map (fun r => (r.id, r.id)) := by
  constructor
  · simp [generate_suggested_tests]
  · simp only [generate_suggested_tests, List.map_map]
    apply List.map_congr_left
    intro r _
    have h := suggested_test_for_id r
    simp only [Function.comp_apply, Prod.mk.injEq]
    exact ⟨h.1, h.2⟩

/-- C2: for the single collection `water_gauge` with query types
`items`, `position` and format `GeoJSON`, no event API, the requirement ids
are exactly `openapi`, `collection-water-gauge`,
`data-query-items-water-gauge`, `data-query-position-water-gauge`,
`output-format-water-gauge` in that order, and the synthesized tests give
the items requirement 5 steps and the position requirement 3 steps. -/
theorem claim_C2_water_gauge_scenario :
    (generate_suggested_requirements
        [⟨"water_gauge", ["items", "position"], ["GeoJSON"]⟩] false []).map
      (fun r => r.id) =
      ["openapi", "collection-water-gauge", "data-query-items-water-gauge",
       "data-query-position-water-gauge", "output-format-water-gauge"] ∧
    (generate_suggested_tests (generate_suggested_requirements
        [⟨"water_gauge", ["items", "position"], ["GeoJSON"]⟩] false [])).map
      (fun t => (t.req_id, t.steps.length)) =
      [("openapi", 4), ("collection-water-gauge", 3),
       ("data-query-items-water-gauge", 5), ("data-query-position-water-gauge", 3),
       ("output-format-water-gauge", 3)] := by
  constructor
  · decide
  · decide

/-- C3: an unrecognized query type produces no requirement
(`generate_query_type_requirement` returns nothing) and is silently dropped
by `generate_suggested_requirements`: deleting every unrecognized query type
from every collection leaves the synthesized requirement list unchanged, so
all requirements of the other (collection, query type) pairs survive. -/
theorem claim_C3_unrecognized_query_type_dropped
    (collections : List Collection) (include_asyncapi : Bool)
    (filters : List FilterSpec) (name qt : String)
    (h : QUERY_TYPE_REQUIREMENTS.lookup qt = none) :
    generate_query_type_requirement name qt = none ∧
    generate_suggested_requirements (collections.map recognized_only)
        include_asyncapi filters =
      generate_suggested_requirements collections include_asyncapi filters := by
  constructor
  · simp [generate_query_type_requirement, h]
  · unfold generate_suggested_requirements
    have h2 : (collections.map recognized_only).map collection_requirement =
        collections.map collection_requirement := by
      rw [List.map_map]
      apply List.map_congr_left
      intro c _
      cases c
      rfl
    have h3 : ∀ c : Collection,
        ((recognized_only c).query_types).filterMap
          (fun qt => generate_query_type_requirement (recognized_only c).name qt) =
        c.query_types.filterMap (fun qt => generate_query_type_requirement c.name qt) := by
      intro c
      show (c.query_types.filter _).filterMap _ = _
      apply filterMap_filter_eq
      intro x hx
      have hnone : QUERY_TYPE_REQUIREMENTS.lookup x = none := by
        cases hl : QUERY_TYPE_REQUIREMENTS.lookup x
        · rfl
        · rw [hl] at hx; simp at hx
      simp [generate_query_type_requirement, hnone]
    have h4 : (collections.map recognized_only).flatMap
          (fun coll => coll.query_types.filterMap
            (fun qt => generate_query_type_requirement coll.name qt)) =
        collections.flatMap (fun coll => coll.query_types.filterMap
          (fun qt => generate_query_type_requirement coll.name qt)) := by
      rw [List.flatMap_map]
      apply flatMap_congr_mem
      intro c _
      exact h3 c
    have h5 : (collections.map recognized_only).map
          (fun coll => generate_format_requirement coll.name coll.formats) =
        collections.map (fun coll => generate_format_requirement coll.name coll.formats) := by
      rw [List.map_map]
      apply List.map_congr_left
      intro c _
      rfl
    have h6 : (collections.map recognized_only).map asyncapi_requirement =
        collections.map asyncapi_requirement := by
      rw [List.map_map]
      apply List.map_congr_left
      intro c _
      cases c
      rfl
    rw [h2, h4, h5, h6]

/-- Witness for C3: the unrecognized query type `radius` is dropped while
`items` survives. -/
theorem claim_C3_witness :
    QUERY_TYPE_REQUIREMENTS.lookup "radius" = none ∧
    generate_query_type_requirement "water_gauge" "radius" = none ∧
    generate_suggested_requirements
        ([⟨"water_gauge", ["items", "radius"], ["GeoJSON"]⟩].map recognized_only)
        false [] =
      generate_suggested_requirements
        [⟨"water_gauge", ["items", "radius"], ["GeoJSON"]⟩] false [] := by
  refine ⟨by decide, ?_, ?_⟩
  · exact (claim_C3_unrecognized_query_type_dropped [] false [] "water_gauge" "radius"
      (by decide)).1
  · exact (claim_C3_unrecognized_query_type_dropped
      [⟨"water_gauge", ["items", "radius"], ["GeoJSON"]⟩] false [] "w" "radius"
      (by decide)).2

/-! ## Claims C5, C10 -/

/-- C5: the output-format requirement expands, in label order, each label
whose lowercase form the Format Rule Table knows to the registered clause
list (case-insensitive lookup), each other label to exactly one generic
fallback clause naming the (lowercased) label; no label is omitted (at least
one clause per label), and the format requirements section of the output is
exactly the per-collection requirements in collection order, so no other
collection's formats can affect it. -/
theorem claim_C5_format_expansion (name : String) (fmts : List String)
    (collections : List Collection) (include_asyncapi : Bool)
    (filters : List FilterSpec) :
    ((generate_format_requirement name fmts).parts =
      format_header name :: fmts.flatMap format_clauses) ∧
    (∀ f clauses, FORMAT_REQUIREMENTS.lookup (pyLower f) = some clauses →
      format_clauses f = clauses) ∧
    (∀ f, FORMAT_REQUIREMENTS.lookup (pyLower f) = none →
      format_clauses f = ["A format with the label " ++ pyLower f ++ " SHALL be supported"]) ∧
    1 + fmts.length ≤ (generate_format_requirement name fmts).parts.length ∧
    (generate_suggested_requirements collections include_asyncapi filters).filter
        (fun r => ("output-format-" : String).data.isPrefixOf r.id.data) =
      collections.map (fun coll => generate_format_requirement coll.name coll.formats) := by
  refine ⟨generate_format_requirement_parts name fmts, ?_, ?_, ?_, ?_⟩
  · intro f clauses h
    unfold format_clauses
    rw [h]
  · intro f h
    unfold format_clauses
    rw [h]
  · rw [generate_format_requirement_parts name fmts]
    have := length_le_length_flatMap format_clauses fmts
      (fun x _ => format_clauses_ne_nil x)
    simp only [List.length_cons]
    omega
  · have hpref2 : (2 : Nat) ≤ ("output-format-" : String).data.length := by decide
    have hopen : (fun r => ("output-format-" : String).data.isPrefixOf r.id.data)
        openapi_requirement = false := by decide
    have hcoll : ∀ c : Collection,
        ("output-format-" : String).data.isPrefixOf (collection_requirement c).id.data
          = false := by
      intro c
      apply isPrefixOf_eq_false_of_take2_ne hpref2
      have : (collection_requirement c).id = "collection-" ++ pyReplace c.name "_" "-" := rfl
      rw [this, str_take2 _ _ (by decide)]
      decide
    have hqt : ∀ c : Collection, ∀ r : Requirement,
        r ∈ c.query_types.filterMap (fun qt => generate_query_type_requirement c.name qt) →
        ("output-format-" : String).data.isPrefixOf r.id.data = false := by
      intro c r hr
      obtain ⟨qt, -, hs⟩ := List.mem_filterMap.mp hr
      apply isPrefixOf_eq_false_of_take2_ne hpref2
      rw [qtreq_id_shape hs, take2_qt_id]
      decide
    have hasync : ∀ c : Collection,
        ("output-format-" : String).data.isPrefixOf (asyncapi_requirement c).id.data
          = false := by
      intro c
      apply isPrefixOf_eq_false_of_take2_ne hpref2
      have : (asyncapi_requirement c).id = "asyncapi-" ++ pyReplace c.name "_" "-" := rfl
      rw [this, str_take2 _ _ (by decide)]
      decide
    have hfmt : ∀ c : Collection,
        ("output-format-" : String).data.isPrefixOf
          (generate_format_requirement c.name c.formats).id.data = true := by
      intro c
      have : (generate_format_requirement c.name c.formats).id =
          "output-format-" ++ pyReplace c.name "_" "-" := rfl
      rw [this]
      exact str_isPrefixOf_append _ _
    have hfilt : (fun r => ("output-format-" : String).data.isPrefixOf r.id.data)
        (filters_requirement filters) = false := by
      have : (filters_requirement filters).id = "filters" := rfl
      simp only [this]
      decide
    unfold generate_suggested_requirements
    simp only [List.filter_append, List.filter_cons, List.filter_nil, hopen]
    rw [List.filter_eq_nil_iff.mpr (by
      intro r hr
      obtain ⟨c, -, rfl⟩ := List.mem_map.mp hr
      simp [hcoll c])]
    rw [List.filter_eq_nil_iff.mpr (by
      intro r hr
      obtain ⟨c, -, hrc⟩ := List.mem_flatMap.mp hr
      simp [hqt c r hrc])]
    rw [List.filter_eq_self.mpr (by
      intro r hr
      obtain ⟨c, -, rfl⟩ := List.mem_map.mp hr
      simp [hfmt c])]
    rw [List.filter_eq_nil_iff.mpr (by
      intro r hr
      rcases include_asyncapi with _ | _
      · simp at hr
      · obtain ⟨c, -, rfl⟩ := List.mem_map.mp (by simpa using hr)
        simp [hasync c])]
    rw [List.filter_eq_nil_iff.mpr (by
      intro r hr
      rcases hke : filters.isEmpty with _ | _
      · rw [hke] at hr
        simp at hr
        rw [hr]
        simp [hfilt]
      · rw [hke] at hr
        simp at hr)]
    simp

/-- Witness for C5 at the unrecognized label `xml` from the spec's example. -/
theorem claim_C5_format_expansion_witness :
    FORMAT_REQUIREMENTS.lookup (pyLower "xml") = none ∧
    format_clauses "xml" = ["A format with the label xml SHALL be supported"] := by
  constructor
  · decide
  · have h := (claim_C5_format_expansion "station" ["xml"] [] false []).2.2.1 "xml"
      (by decide)
    exact h.trans (by decide)

/-- C10: the parts list of a format requirement always starts with the
header clause `Collection {name} SHALL support the following formats:`, is
never empty (even for an empty format list), the fallback clause for the
unrecognized label `XML` names the lowercased `xml`, and the requirement is
produced for every collection of the configuration. -/
theorem claim_C10_format_requirement_always_produced (name : String)
    (fmts : List String) (collections : List Collection) (include_asyncapi : Bool)
    (filters : List FilterSpec) (c : Collection) (hc : c ∈ collections) :
    (∃ rest, (generate_format_requirement name fmts).parts =
      format_header name :: rest) ∧
    (generate_format_requirement name fmts).parts ≠ [] ∧
    (generate_format_requirement name ["XML"]).parts =
      [format_header name, "A format with the label xml SHALL be supported"] ∧
    generate_format_requirement c.name c.formats ∈
      generate_suggested_requirements collections include_asyncapi filters := by
  refine ⟨⟨fmts.flatMap format_clauses, generate_format_requirement_parts name fmts⟩,
    ?_, ?_, ?_⟩
  · rw [generate_format_requirement_parts name fmts]
    simp
  · rw [generate_format_requirement_parts name ["XML"]]
    have : format_clauses "XML" = ["A format with the label xml SHALL be supported"] := by
      decide
    simp [this]
  · have hm : generate_format_requirement c.name c.formats ∈
        collections.map (fun coll => generate_format_requirement coll.name coll.formats) :=
      List.mem_map_of_mem _ hc
    unfold generate_suggested_requirements
    simp only [List.mem_append]
    tauto

/-- Witness for C10 at a collection with an empty format list. -/
theorem claim_C10_witness :
    generate_format_requirement "gauge" [] ∈
      generate_suggested_requirements [⟨"gauge", ["items"], []⟩] false [] := by
  have h := claim_C10_format_requirement_always_produced "x" [] [⟨"gauge", ["items"], []⟩]
    false [] ⟨"gauge", ["items"], []⟩ (List.mem_singleton_self _)
  exact h.2.2.2

/-! ## Split/replace characterizations (for the test-dispatch claim) -/

/-- Replacing a single character is a character map. -/
theorem replaceFuel_single (c d : Char) :
    ∀ (l : List Char) (fuel : Nat), l.length < fuel →
      replaceFuel [c] [d] fuel l = l.map (fun x => if x = c then d else x) := by
  intro l
  induction l with
  | nil =>
    intro fuel h
    cases fuel with
    | zero => omega
    | succ f => rfl
  | cons x rest ih =>
    intro fuel h
    cases fuel with
    | zero => omega
    | succ f =>
      have hrest : rest.length < f := by
        simp only [List.length_cons] at h
        omega
      by_cases hcx : c = x
      · subst hcx
        simp [replaceFuel, List.isPrefixOf, ih _ hrest]
      · have hne : (c == x) = false := by simp [hcx]
        simp [replaceFuel, List.isPrefixOf, hne, ih _ hrest, Ne.symm hcx]

/-- `pyReplace` with single-character patterns is a character map. -/
theorem pyReplace_single_data {old new : String} {c d : Char} (hc : old.data = [c])
    (hd : new.data = [d]) (s : String) :
    (pyReplace s old new).data = s.data.map (fun x => if x = c then d else x) := by
  unfold pyReplace
  rw [hc, hd]
  exact replaceFuel_single c d s.data _ (by omega)

/-- `splitFuel` never returns the empty list of segments. -/
theorem splitFuel_ne_nil (sep : List Char) (fuel : Nat) (l : List Char) :
    splitFuel sep fuel l ≠ [] := by
  cases fuel with
  | zero => simp [splitFuel]
  | succ f =>
    cases l with
    | nil => simp [splitFuel]
    | cons c rest =>
      simp only [splitFuel]
      split
      · simp
      · split
        · simp
        · simp

/-- The first segment of a split is the part before the first occurrence of
the separator. -/
theorem splitFuel_head (sep : List Char) (hsep : sep.isEmpty = false) :
    ∀ (l : List Char) (fuel : Nat), l.length < fuel →
      (splitFuel sep fuel l).getD 0 [] = beforeNextOcc sep l := by
  intro l
  induction l with
  | nil =>
    intro fuel h
    cases fuel with
    | zero => omega
    | succ f => simp [splitFuel, beforeNextOcc]
  | cons c rest ih =>
    intro fuel h
    cases fuel with
    | zero => omega
    | succ f =>
      have hrest : rest.length < f := by
        simp only [List.length_cons] at h
        omega
      cases hpre : sep.isPrefixOf (c :: rest) with
      | true => simp [splitFuel, beforeNextOcc, hsep, hpre]
      | false =>
        obtain ⟨s, ss, hinner⟩ : ∃ s ss, splitFuel sep f rest = s :: ss := by
          cases hsp : splitFuel sep f rest with
          | nil => exact absurd hsp (splitFuel_ne_nil sep f rest)
          | cons s ss => exact ⟨s, ss, rfl⟩
        have hih := ih f hrest
        rw [hinner] at hih
        simp only [List.getD_cons_zero] at hih
        simp [splitFuel, beforeNextOcc, hsep, hpre, hinner, hih]

/-- Segment `[1]` of a split, when the separator occurs: the part after the
first occurrence, up to the next occurrence. -/
theorem splitFuel_get1 (sep : List Char) (hsep : sep.isEmpty = false) :
    ∀ (l : List Char) (fuel : Nat), l.length < fuel → containsSub l sep = true →
      (splitFuel sep fuel l).getD 1 [] = beforeNextOcc sep (afterFirstOcc sep l) := by
  intro l
  induction l with
  | nil =>
    intro fuel h hcont
    have : sep.isEmpty = true := by simpa [containsSub] using hcont
    rw [this] at hsep
    exact absurd hsep (by simp)
  | cons c rest ih =>
    intro fuel h hcont
    cases fuel with
    | zero => omega
    | succ f =>
      have hrest : rest.length < f := by
        simp only [List.length_cons] at h
        omega
      cases hpre : sep.isPrefixOf (c :: rest) with
      | true =>
        have hdroplen : ((c :: rest).drop sep.length).length < f := by
          have hslen : 0 < sep.length := by
            cases sep with
            | nil => simp at hsep
            | cons a as => simp
          rw [List.length_drop]
          simp only [List.length_cons]
          omega
        simp only [splitFuel, hsep, hpre, Bool.not_false, Bool.true_and, if_true,
          List.getD_cons_succ, afterFirstOcc]
        exact splitFuel_head sep hsep _ f hdroplen
      | false =>
        have hcont' : containsSub rest sep = true := by
          simp only [containsSub, hpre, Bool.false_or] at hcont
          exact hcont
        obtain ⟨s, ss, hinner⟩ : ∃ s ss, splitFuel sep f rest = s :: ss := by
          cases hsp : splitFuel sep f rest with
          | nil => exact absurd hsp (splitFuel_ne_nil sep f rest)
          | cons s ss => exact ⟨s, ss, rfl⟩
        have hih := ih f hrest hcont'
        rw [hinner] at hih
        have hstep : splitFuel sep (f + 1) (c :: rest) = (c :: s) :: ss := by
          simp [splitFuel, hsep, hpre, hinner]
        have hafter : afterFirstOcc sep (c :: rest) = afterFirstOcc sep rest := by
          simp [afterFirstOcc, hpre]
        rw [hstep, hafter]
        simp only [List.getD_cons_succ] at hih ⊢
        exact hih

/-- `getD` through the `String.mk` wrapping of `pySplit`. -/
theorem getD_map_mk (l : List (List Char)) (i : Nat) :
    (l.map String.mk).getD i "" = ⟨l.getD i []⟩ := by
  induction l generalizing i with
  | nil => cases i <;> rfl
  | cons x xs ih =>
    cases i with
    | zero => rfl
    | succ j =>
      simp only [List.map_cons, List.getD_cons_succ]
      exact ih j

/-- With a single-character separator, the leading segment is a
`takeWhile`. -/
theorem beforeNextOcc_single (c : Char) :
    ∀ l : List Char, beforeNextOcc [c] l = l.takeWhile (fun x => x ≠ c) := by
  intro l
  induction l with
  | nil => rfl
  | cons x rest ih =>
    by_cases hcx : c = x
    · subst hcx
      simp [beforeNextOcc, List.isPrefixOf, List.takeWhile_cons]
    · have hne : (c == x) = false := by simp [hcx]
      simp [beforeNextOcc, List.isPrefixOf, hne, List.takeWhile_cons, Ne.symm hcx, ih]

/-- A character that is not contained is not a member. -/
theorem not_mem_of_containsSub_single_false {c : Char} :
    ∀ {l : List Char}, containsSub l [c] = false → c ∉ l := by
  intro l
  induction l with
  | nil => intro _ h; simp at h
  | cons x rest ih =>
    intro hcont hmem
    simp only [containsSub, List.isPrefixOf, Bool.or_eq_false_iff, Bool.and_eq_false_iff] at hcont
    rcases List.mem_cons.mp hmem with rfl | hmem'
    · rcases hcont.1 with h | h
      · simp at h
      · simp [List.isPrefixOf] at h
    · exact ih hcont.2 hmem'

/-- `takeWhile` keeps everything when the predicate never fails. -/
theorem takeWhile_eq_self_of_all {c : Char} :
    ∀ {l : List Char}, c ∉ l → l.takeWhile (fun x => x ≠ c) = l := by
  intro l
  induction l with
  | nil => intro _; rfl
  | cons x rest ih =>
    intro hmem
    have hx : x ≠ c := fun h => hmem (h ▸ List.mem_cons_self x rest)
    have hr := ih (fun h => hmem (List.mem_cons_of_mem x h))
    simp only [List.takeWhile_cons, hr]
    simp [hx]

/-- The marker string `data-query-{qt}-` is never empty. -/
theorem marker_ne_empty (qt : String) :
    (("data-query-" ++ qt ++ "-") : String).data.isEmpty = false := by
  have : (("data-query-" ++ qt ++ "-") : String).data =
      ("data-query-" ++ qt : String).data ++ ['-'] := by
    rw [String.data_append]
  rw [this]
  cases h : ("data-query-" ++ qt : String).data <;> simp

/-! ## Claim C4 -/

/-- C4 counterexample: for the requirement id
`xdata-query-items-xdata-query-items-c`, the id does not match the pattern
`data-query-{qt}-{collection}` (it starts with `xdata`), and `xdata` is not
one of the fixed template keys, so the claim as stated prescribes the three
generic steps naming the id; the code instead dispatches on mere substring
containment of `data-query-items-` and extracts the segment between its
first two occurrences, producing the items template steps for collection
`x`. -/
theorem claim_C4_counterexample :
    (generate_suggested_tests [⟨"xdata-query-items-xdata-query-items-c", "s", []⟩]).map
      (fun t => t.steps) =
      [["Send GET request to /collections/x/items",
        "Verify response is valid GeoJSON FeatureCollection",
        "Verify response contains required properties",
        "Send GET request to /collections/x/items/\x7bfeatureId\x7d",
        "Verify response is valid GeoJSON Feature"]] ∧
    (generate_suggested_tests [⟨"xdata-query-items-xdata-query-items-c", "s", []⟩]).map
      (fun t => t.steps) ≠
      [["Verify requirement xdata-query-items-xdata-query-items-c is implemented",
        "Test basic functionality",
        "Verify conformance"]] := by
  constructor
  · decide
  · decide

/-- C4 (amended): the test synthesizer's dispatch, for every requirement:
if some recognized query type `qt` (scanned in rule-table order) has its
marker `data-query-{qt}-` contained anywhere in the id, the steps are `qt`'s
templates with the collection name — the segment of the id after the first
occurrence of the marker up to its next occurrence, dashes restored to
underscores — substituted in; otherwise the id's token before its first dash
selects one of the fixed step lists (`openapi`, `asyncapi`, `filters`); and
otherwise the test gets the three generic steps naming the id.  Stated as:
the generated tests coincide with the spec-worded `spec_test_for`. -/
theorem claim_C4_test_dispatch (requirements : List Requirement) :
    generate_suggested_tests requirements = requirements.map spec_test_for := by
  unfold generate_suggested_tests
  apply List.map_congr_left
  intro req _
  rcases hfind : (QUERY_TYPE_TEST_STEPS.map Prod.fst).find?
      (fun qt => pyIn ("data-query-" ++ qt ++ "-") req.id) with _ | qt
  · -- no marker contained: both take the token-before-dash route
    have hfind2 : (QUERY_TYPE_TEST_STEPS.map Prod.fst).find?
        (fun qt => containsSub req.id.data (("data-query-" ++ qt ++ "-") : String).data) =
        none := hfind
    have hbase : (if pyIn "-" req.id then (pySplit req.id "-").getD 0 "" else req.id) =
        (⟨req.id.data.takeWhile (fun c => c ≠ '-')⟩ : String) := by
      cases hin : pyIn "-" req.id with
      | true =>
        simp only [if_true]
        unfold pySplit
        rw [getD_map_mk]
        rw [splitFuel_head ['-'] (by simp) req.id.data _ (by omega)]
        rw [beforeNextOcc_single]
      | false =>
        rw [if_neg (by simp)]
        have hnm : '-' ∉ req.id.data := not_mem_of_containsSub_single_false hin
        apply String.ext
        exact (takeWhile_eq_self_of_all hnm).symm
    simp only [suggested_test_for, spec_test_for, hfind, hfind2, hbase]
  · -- marker of qt contained: collection extraction agrees
    have hfind2 : (QUERY_TYPE_TEST_STEPS.map Prod.fst).find?
        (fun qt => containsSub req.id.data (("data-query-" ++ qt ++ "-") : String).data) =
        some qt := hfind
    have hp0 := List.find?_some hfind
    have hp : pyIn ("data-query-" ++ qt ++ "-") req.id = true := hp0
    have hcont : containsSub req.id.data (("data-query-" ++ qt ++ "-") : String).data
        = true := hp
    have hcoll : pyReplace
        ((pySplit req.id ("data-query-" ++ qt ++ "-")).getD 1 "") "-" "_" =
        (⟨(beforeNextOcc (("data-query-" ++ qt ++ "-") : String).data
            (afterFirstOcc (("data-query-" ++ qt ++ "-") : String).data req.id.data)).map
          (fun c => if c = '-' then '_' else c)⟩ : String) := by
      apply String.ext
      rw [pyReplace_single_data rfl rfl]
      unfold pySplit
      rw [getD_map_mk]
      rw [splitFuel_get1 _ (marker_ne_empty qt) req.id.data _ (by omega) hcont]
    simp only [suggested_test_for, spec_test_for, hfind, hfind2,
      generate_query_type_test, hcoll]

/-! ## Claim C6: id uniqueness -/

/-- The table keys are separated: no marker `{qt}-` of one key is a prefix
of another key's marker (checked exhaustively over the eight keys). -/
theorem qt_key_marker_determines :
    ∀ q1 ∈ QUERY_TYPE_REQUIREMENTS.map Prod.fst,
      ∀ q2 ∈ QUERY_TYPE_REQUIREMENTS.map Prod.fst,
        (q1.data ++ ['-']).isPrefixOf (q2.data ++ ['-']) = true → q1 = q2 := by
  decide

/-- A query-type requirement id determines its query type and dash-cased
collection name. -/
theorem qt_id_inj {q1 q2 : String}
    (h1 : q1 ∈ QUERY_TYPE_REQUIREMENTS.map Prod.fst)
    (h2 : q2 ∈ QUERY_TYPE_REQUIREMENTS.map Prod.fst) {n1 n2 : String}
    (h : "data-query-" ++ q1 ++ "-" ++ n1 = "data-query-" ++ q2 ++ "-" ++ n2) :
    q1 = q2 ∧ n1 = n2 := by
  have hd := congrArg String.data h
  simp only [String.data_append] at hd
  rw [List.append_assoc, List.append_assoc, List.append_assoc, List.append_assoc] at hd
  have hd2 := List.append_cancel_left hd
  rw [← List.append_assoc, ← List.append_assoc] at hd2
  have hpre1 : (q1.data ++ ['-']) <+: ((q2.data ++ ['-']) ++ n2.data) := by
    rw [← hd2]
    exact List.prefix_append _ _
  have hpre2 : (q2.data ++ ['-']) <+: ((q2.data ++ ['-']) ++ n2.data) :=
    List.prefix_append _ _
  have hq : q1 = q2 := by
    rcases List.prefix_or_prefix_of_prefix hpre1 hpre2 with hp | hp
    · exact qt_key_marker_determines q1 h1 q2 h2 (List.isPrefixOf_iff_prefix.mpr hp)
    · exact (qt_key_marker_determines q2 h2 q1 h1 (List.isPrefixOf_iff_prefix.mpr hp)).symm
  subst hq
  exact ⟨rfl, String.ext (List.append_cancel_left hd2)⟩

/-- The ids of the query-type requirements of one collection. -/
theorem qtreq_ids_filterMap (name : String) :
    ∀ qts : List String,
      (qts.filterMap (fun qt => generate_query_type_requirement name qt)).map
          (fun r => r.id) =
        (qts.filter (fun qt => (QUERY_TYPE_REQUIREMENTS.lookup qt).isSome)).map
          (fun qt => "data-query-" ++ qt ++ "-" ++ pyReplace name "_" "-") := by
  intro qts
  induction qts with
  | nil => rfl
  | cons q rest ih =>
    cases hl : QUERY_TYPE_REQUIREMENTS.lookup q with
    | none =>
      have hq : generate_query_type_requirement name q = none := by
        simp [generate_query_type_requirement, hl]
      simp [List.filterMap_cons, List.filter_cons, hq, hl, ih]
    | some t =>
      have hq : generate_query_type_requirement name q =
          some { id := "data-query-" ++ q ++ "-" ++ pyReplace name "_" "-",
                 statement := pyFormat t.statement name,
                 parts := t.parts.map (fun part => pyFormat part name) } := by
        simp [generate_query_type_requirement, hl]
      simp [List.filterMap_cons, List.filter_cons, hq, hl, ih]

/-- The full id list produced by requirement synthesis, section by
section. -/
theorem suggested_requirement_ids (collections : List Collection)
    (include_asyncapi : Bool) (filters : List FilterSpec) :
    (generate_suggested_requirements collections include_asyncapi filters).map
        (fun r => r.id) =
      ["openapi"]
      ++ collections.map (fun c => "collection-" ++ pyReplace c.name "_" "-")
      ++ collections.flatMap (fun c =>
          (c.query_types.filter (fun qt => (QUERY_TYPE_REQUIREMENTS.lookup qt).isSome)).map
            (fun qt => "data-query-" ++ qt ++ "-" ++ pyReplace c.name "_" "-"))
      ++ collections.map (fun c => "output-format-" ++ pyReplace c.name "_" "-")
      ++ (if include_asyncapi then
            collections.map (fun c => "asyncapi-" ++ pyReplace c.name "_" "-")
          else [])
      ++ (if filters.isEmpty then [] else ["filters"]) := by
  have hA : collections.map ((fun (r : Requirement) => r.id) ∘ collection_requirement) =
      collections.map (fun c => "collection-" ++ pyReplace c.name "_" "-") :=
    List.map_congr_left (fun c _ => rfl)
  have hC : collections.map ((fun (r : Requirement) => r.id) ∘
        fun coll => generate_format_requirement coll.name coll.formats) =
      collections.map (fun c => "output-format-" ++ pyReplace c.name "_" "-") :=
    List.map_congr_left (fun c _ => rfl)
  have hD : collections.map ((fun (r : Requirement) => r.id) ∘ asyncapi_requirement) =
      collections.map (fun c => "asyncapi-" ++ pyReplace c.name "_" "-") :=
    List.map_congr_left (fun c _ => rfl)
  simp [generate_suggested_requirements, List.map_append, List.map_flatMap,
    List.map_map, qtreq_ids_filterMap, apply_ite (List.map (fun r : Requirement => r.id)),
    openapi_requirement, filters_requirement, hA, hC, hD]

/-- Disjointness from both parts of an append. -/
theorem disjoint_append_of {α : Type} {l₁ l₂ l : List α}
    (h1 : l₁.Disjoint l) (h2 : l₂.Disjoint l) : (l₁ ++ l₂).Disjoint l := by
  intro x hx hxl
  rcases List.mem_append.mp hx with h | h
  · exact h1 h hxl
  · exact h2 h hxl

/-- Two lists whose members have different two-character tags are
disjoint. -/
theorem disjoint_of_take2 {S T : List String} {t u : List Char}
    (hS : ∀ x ∈ S, x.data.take 2 = t) (hT : ∀ x ∈ T, x.data.take 2 = u)
    (htu : t ≠ u) : S.Disjoint T := by
  intro x hxS hxT
  exact htu ((hS x hxS).symm.trans (hT x hxT))

/-- A key whose lookup succeeds is among the keys. -/
theorem lookup_isSome_key_mem {α : Type} [BEq α] [LawfulBEq α] {β : Type}
    {l : List (α × β)} {k : α} (h : (l.lookup k).isSome = true) :
    k ∈ l.map Prod.fst := by
  obtain ⟨p, hp, hk⟩ := List.lookup_isSome_iff.mp h
  have hke : k = p.1 := by simpa using hk
  rw [hke]
  exact List.mem_map_of_mem Prod.fst hp

/-- C6 counterexample: the claim asserts pairwise-distinct ids even when a
collection repeats a recognized query type or two collection names differ
only by underscore versus dash; in both situations the code emits duplicate
ids. -/
theorem claim_C6_counterexample :
    ¬ ((generate_suggested_requirements [⟨"c", ["items", "items"], []⟩] false []).map
        (fun r => r.id)).Nodup ∧
    ¬ ((generate_suggested_requirements [⟨"a_b", [], []⟩, ⟨"a-b", [], []⟩] false []).map
        (fun r => r.id)).Nodup := by
  constructor
  · decide
  · decide

/-- C6 (amended): the requirement ids are pairwise distinct provided that no
collection lists the same recognized query type twice and that the
dash-normalized collection names are pairwise distinct; with a repeated
recognized query type, or two names that coincide after replacing
underscores by dashes, requirement synthesis emits duplicate ids (see the
counterexample). -/
theorem claim_C6_unique_ids (collections : List Collection)
    (include_asyncapi : Bool) (filters : List FilterSpec)
    (hq : ∀ c ∈ collections,
      (c.query_types.filter (fun qt => (QUERY_TYPE_REQUIREMENTS.lookup qt).isSome)).Nodup)
    (hn : (collections.map (fun c => pyReplace c.name "_" "-")).Nodup) :
    ((generate_suggested_requirements collections include_asyncapi filters).map
      (fun r => r.id)).Nodup := by
  rw [suggested_requirement_ids]
  -- two-character tags of the six sections
  have hT1 : ∀ x ∈ (["openapi"] : List String), x.data.take 2 = ['o', 'p'] := by
    intro x hx
    have : x = "openapi" := by simpa using hx
    subst this
    decide
  have hT2 : ∀ x ∈ collections.map (fun c => "collection-" ++ pyReplace c.name "_" "-"),
      x.data.take 2 = ['c', 'o'] := by
    intro x hx
    obtain ⟨c, -, rfl⟩ := List.mem_map.mp hx
    rw [str_take2 _ _ (by decide)]
    decide
  have hT3 : ∀ x ∈ collections.flatMap (fun c =>
      (c.query_types.filter (fun qt => (QUERY_TYPE_REQUIREMENTS.lookup qt).isSome)).map
        (fun qt => "data-query-" ++ qt ++ "-" ++ pyReplace c.name "_" "-")),
      x.data.take 2 = ['d', 'a'] := by
    intro x hx
    obtain ⟨c, -, hx2⟩ := List.mem_flatMap.mp hx
    obtain ⟨qt, -, rfl⟩ := List.mem_map.mp hx2
    exact take2_qt_id qt _
  have hT4 : ∀ x ∈ collections.map (fun c => "output-format-" ++ pyReplace c.name "_" "-"),
      x.data.take 2 = ['o', 'u'] := by
    intro x hx
    obtain ⟨c, -, rfl⟩ := List.mem_map.mp hx
    rw [str_take2 _ _ (by decide)]
    decide
  have hT5 : ∀ x ∈ (if include_asyncapi then
      collections.map (fun c => "asyncapi-" ++ pyReplace c.name "_" "-") else []),
      x.data.take 2 = ['a', 's'] := by
    intro x hx
    cases include_asyncapi
    · simp at hx
    · rw [if_pos rfl] at hx
      obtain ⟨c, -, rfl⟩ := List.mem_map.mp hx
      rw [str_take2 _ _ (by decide)]
      decide
  have hT6 : ∀ x ∈ (if filters.isEmpty then [] else (["filters"] : List String)),
      x.data.take 2 = ['f', 'i'] := by
    intro x hx
    cases hfe : filters.isEmpty <;> rw [hfe] at hx
    · have : x = "filters" := by simpa using hx
      subst this
      decide
    · simp at hx
  -- each section has no duplicates
  have hN1 : (["openapi"] : List String).Nodup := by decide
  have hinj : ∀ p : String, Function.Injective (fun n => p ++ n) :=
    fun p a b hab => str_append_cancel_left hab
  have hN2 : (collections.map (fun c => "collection-" ++ pyReplace c.name "_" "-")).Nodup := by
    have he : collections.map (fun c => "collection-" ++ pyReplace c.name "_" "-") =
        (collections.map (fun c => pyReplace c.name "_" "-")).map
          (fun n => "collection-" ++ n) := by
      rw [List.map_map]
      exact List.map_congr_left (fun c _ => rfl)
    rw [he]
    exact List.Nodup.map (hinj "collection-") hn
  have hN3 : (collections.flatMap (fun c =>
      (c.query_types.filter (fun qt => (QUERY_TYPE_REQUIREMENTS.lookup qt).isSome)).map
        (fun qt => "data-query-" ++ qt ++ "-" ++ pyReplace c.name "_" "-"))).Nodup := by
    apply List.nodup_flatMap.mpr
    constructor
    · intro c hc
      apply List.Nodup.map_on
      · intro x hx y hy hxy
        have hxk : x ∈ QUERY_TYPE_REQUIREMENTS.map Prod.fst :=
          lookup_isSome_key_mem (List.mem_filter.mp hx).2
        have hyk : y ∈ QUERY_TYPE_REQUIREMENTS.map Prod.fst :=
          lookup_isSome_key_mem (List.mem_filter.mp hy).2
        exact (qt_id_inj hxk hyk hxy).1
      · exact hq c hc
    · have hp : collections.Pairwise
          (fun a b => pyReplace a.name "_" "-" ≠ pyReplace b.name "_" "-") :=
        List.pairwise_map.mp hn
      refine hp.imp ?_
      intro a b hab x hxa hxb
      obtain ⟨qa, hqa, rfl⟩ := List.mem_map.mp hxa
      obtain ⟨qb, hqb, hxe⟩ := List.mem_map.mp hxb
      have hka : qa ∈ QUERY_TYPE_REQUIREMENTS.map Prod.fst :=
        lookup_isSome_key_mem (List.mem_filter.mp hqa).2
      have hkb : qb ∈ QUERY_TYPE_REQUIREMENTS.map Prod.fst :=
        lookup_isSome_key_mem (List.mem_filter.mp hqb).2
      exact hab ((qt_id_inj hkb hka hxe).2.symm)
  have hN4 : (collections.map (fun c => "output-format-" ++ pyReplace c.name "_" "-")).Nodup := by
    have he : collections.map (fun c => "output-format-" ++ pyReplace c.name "_" "-") =
        (collections.map (fun c => pyReplace c.name "_" "-")).map
          (fun n => "output-format-" ++ n) := by
      rw [List.map_map]
      exact List.map_congr_left (fun c _ => rfl)
    rw [he]
    exact List.Nodup.map (hinj "output-format-") hn
  have hN5 : (if include_asyncapi then
      collections.map (fun c => "asyncapi-" ++ pyReplace c.name "_" "-") else []).Nodup := by
    cases include_asyncapi
    · simp
    · rw [if_pos rfl]
      have he : collections.map (fun c => "asyncapi-" ++ pyReplace c.name "_" "-") =
          (collections.map (fun c => pyReplace c.name "_" "-")).map
            (fun n => "asyncapi-" ++ n) := by
        rw [List.map_map]
        exact List.map_congr_left (fun c _ => rfl)
      rw [he]
      exact List.Nodup.map (hinj "asyncapi-") hn
  have hN6 : (if filters.isEmpty then [] else (["filters"] : List String)).Nodup := by
    cases filters.isEmpty
    · simp
    · simp
  -- assemble: all six tags are pairwise distinct
  refine List.nodup_append.mpr ⟨?_, hN6, ?_⟩
  · refine List.nodup_append.mpr ⟨?_, hN5, ?_⟩
    · refine List.nodup_append.mpr ⟨?_, hN4, ?_⟩
      · refine List.nodup_append.mpr ⟨?_, hN3, ?_⟩
        · refine List.nodup_append.mpr ⟨hN1, hN2, ?_⟩
          exact disjoint_of_take2 hT1 hT2 (by decide)
        · exact disjoint_append_of (disjoint_of_take2 hT1 hT3 (by decide))
            (disjoint_of_take2 hT2 hT3 (by decide))
      · exact disjoint_append_of
          (disjoint_append_of (disjoint_of_take2 hT1 hT4 (by decide))
            (disjoint_of_take2 hT2 hT4 (by decide)))
          (disjoint_of_take2 hT3 hT4 (by decide))
    · exact disjoint_append_of
        (disjoint_append_of
          (disjoint_append_of (disjoint_of_take2 hT1 hT5 (by decide))
            (disjoint_of_take2 hT2 hT5 (by decide)))
          (disjoint_of_take2 hT3 hT5 (by decide)))
        (disjoint_of_take2 hT4 hT5 (by decide))
  · exact disjoint_append_of
      (disjoint_append_of
        (disjoint_append_of
          (disjoint_append_of (disjoint_of_take2 hT1 hT6 (by decide))
            (disjoint_of_take2 hT2 hT6 (by decide)))
          (disjoint_of_take2 hT3 hT6 (by decide)))
        (disjoint_of_take2 hT4 hT6 (by decide)))
      (disjoint_of_take2 hT5 hT6 (by decide))

/-- Witness for C6 on a two-collection configuration with the event API and
a filter. -/
theorem claim_C6_witness :
    ((generate_suggested_requirements
        [⟨"water_gauge", ["items", "position"], ["GeoJSON"]⟩,
         ⟨"air", ["cube", "radius"], []⟩]
        true [⟨"threshold", "minimum value", "number"⟩]).map (fun r => r.id)).Nodup :=
  claim_C6_unique_ids _ _ _ (by decide) (by decide)

/-! ## Claim C7: HTTP API synthesizer on an `items` collection -/

/-- Strings of different lengths differ. -/
theorem str_ne_of_len {a b : String} (h : a.data.length ≠ b.data.length) : a ≠ b :=
  fun he => h (he ▸ rfl)

/-- Inserting into an empty dict. -/
theorem dictInsert_nil {α : Type} (k : String) (v : α) :
    dictInsert ([] : List (String × α)) k v = [(k, v)] := by
  simp [dictInsert, List.lookup]

/-- Inserting a fresh key appends. -/
theorem dictInsert_fresh {α : Type} {d : List (String × α)} {k : String}
    (hk : d.lookup k = none) (v : α) : dictInsert d k v = d ++ [(k, v)] := by
  simp [dictInsert, hk]

/-- Lookup misses a single different key. -/
theorem lookup_pair_none {α : Type} {k a : String} (h : k ≠ a) (v : α) :
    List.lookup k [(a, v)] = none := by
  have hb : (k == a) = false := beq_eq_false_iff_ne.mpr h
  simp [List.lookup, hb]

/-- Lookup misses two different keys. -/
theorem lookup_two_none {α : Type} {k a b : String} (ha : k ≠ a) (hb : k ≠ b)
    (v w : α) : List.lookup k [(a, v), (b, w)] = none := by
  have ha' : (k == a) = false := beq_eq_false_iff_ne.mpr ha
  have hb' : (k == b) = false := beq_eq_false_iff_ne.mpr hb
  simp [List.lookup, ha', hb']

/-- C7 counterexample: a collection with query types `["items"]` yields
three path items, not two — the always-emitted collection metadata path
plus the two items paths. -/
theorem claim_C7_counterexample :
    (create_openapi "p" [⟨"c", ["items"], ["GeoJSON"]⟩] [] false).paths.map Prod.fst =
      ["/collections/c", "/collections/c/items", "/collections/c/items/\x7bfeatureId\x7d"] ∧
    ((create_openapi "p" [⟨"c", ["items"], ["GeoJSON"]⟩] [] false).paths.map
      Prod.fst).length ≠ 2 := by
  constructor
  · decide
  · decide

/-- C7 (amended): for every collection whose query type list is exactly
`["items"]`, the HTTP API synthesizer produces exactly three path items —
`/collections/{name}`, `/collections/{name}/items` and
`/collections/{name}/items/{featureId}`, in that order — and exactly one
schema entry in `components.schemas` for that collection. -/
theorem claim_C7_http_api_items (profile_name cname : String)
    (formats properties : List String) (include_asyncapi : Bool) :
    (create_openapi profile_name [⟨cname, ["items"], formats⟩] properties
        include_asyncapi).paths.map Prod.fst =
      ["/collections/" ++ cname, "/collections/" ++ cname ++ "/items",
       "/collections/" ++ cname ++ "/items/\x7bfeatureId\x7d"] ∧
    (create_openapi profile_name [⟨cname, ["items"], formats⟩] properties
        include_asyncapi).schemas.length = 1 := by
  have l13 : ("/collections/" : String).data.length = 13 := by decide
  have l6 : ("/items" : String).data.length = 6 := by decide
  have l18 : ("/items/\x7bfeatureId\x7d" : String).data.length = 18 := by decide
  have e0 : ("/collections/" ++ cname : String).data.length = 13 + cname.data.length := by
    rw [String.data_append, List.length_append, l13]
  have e1 : ("/collections/" ++ cname ++ "/items" : String).data.length =
      19 + cname.data.length := by
    rw [String.data_append, List.length_append, e0, l6]
    omega
  have e2 : ("/collections/" ++ cname ++ "/items/\x7bfeatureId\x7d" : String).data.length =
      31 + cname.data.length := by
    rw [String.data_append, List.length_append, e0, l18]
    omega
  have hne1 : ("/collections/" ++ cname ++ "/items" : String) ≠ "/collections/" ++ cname :=
    str_ne_of_len (by rw [e1, e0]; omega)
  have hne2 : ("/collections/" ++ cname ++ "/items/\x7bfeatureId\x7d" : String) ≠
      "/collections/" ++ cname :=
    str_ne_of_len (by rw [e2, e0]; omega)
  have hne3 : ("/collections/" ++ cname ++ "/items/\x7bfeatureId\x7d" : String) ≠
      "/collections/" ++ cname ++ "/items" :=
    str_ne_of_len (by rw [e2, e1]; omega)
  unfold create_openapi
  simp only [List.foldl_cons, List.foldl_nil, if_true]
  rw [dictInsert_nil, dictInsert_nil]
  rw [dictInsert_fresh (lookup_pair_none hne1 _)]
  simp only [List.singleton_append]
  rw [dictInsert_fresh (lookup_two_none hne2 hne3 _ _)]
  constructor
  · simp
  · simp

/-! ## Claim C8: anchor ids -/

/-- `replaceFuel` is the identity when the pattern never occurs. -/
theorem replaceFuel_no_occ {pat : List Char} (new : List Char) :
    ∀ (l : List Char), containsSub l pat = false →
      ∀ fuel : Nat, l.length < fuel → replaceFuel pat new fuel l = l := by
  intro l
  induction l with
  | nil =>
    intro _ fuel h
    cases fuel with
    | zero => omega
    | succ f => rfl
  | cons x rest ih =>
    intro hcont fuel h
    cases fuel with
    | zero => omega
    | succ f =>
      have hrest : rest.length < f := by
        simp only [List.length_cons] at h
        omega
      simp only [containsSub, Bool.or_eq_false_iff] at hcont
      simp [replaceFuel, hcont.1, ih hcont.2 f hrest]

/-- One non-matching head step of `replaceFuel`. -/
theorem replaceFuel_cons_ne {pat : List Char} (new : List Char) {x : Char}
    {l : List Char} (h : pat.isPrefixOf (x :: l) = false) (f : Nat) :
    replaceFuel pat new (f + 1) (x :: l) = x :: replaceFuel pat new f l := by
  simp [replaceFuel, h]

/-- A list is a (boolean) prefix of itself extended on the right. -/
theorem isPrefixOf_append_self (l t : List Char) : l.isPrefixOf (l ++ t) = true :=
  List.isPrefixOf_iff_prefix.mpr (List.prefix_append l t)

/-- Refuting a prefix by its first character. -/
theorem isPrefixOf_cons_ne {x y : Char} (xs l : List Char) (h : x ≠ y) :
    ((x :: xs).isPrefixOf (y :: l)) = false := by
  have hb : (x == y) = false := beq_eq_false_iff_ne.mpr h
  simp [List.isPrefixOf, hb]

/-- The matching step of `replaceFuel`. -/
theorem replaceFuel_match {pat : List Char} (hne : pat.isEmpty = false)
    (new rest : List Char) (f : Nat) :
    replaceFuel pat new (f + 1) (pat ++ rest) = new ++ replaceFuel pat new f rest := by
  cases pat with
  | nil => simp at hne
  | cons p0 ps =>
    have h1 : (p0 :: ps).isPrefixOf ((p0 :: ps) ++ rest) = true :=
      isPrefixOf_append_self _ _
    have h2 : ((p0 :: ps) ++ rest) = p0 :: (ps ++ rest) := rfl
    rw [h2] at h1
    show replaceFuel (p0 :: ps) new (f + 1) (p0 :: (ps ++ rest)) = _
    simp only [replaceFuel, h1, List.isEmpty_cons, Bool.not_false, Bool.and_true,
      Bool.true_and, if_true]
    have h3 : (p0 :: (ps ++ rest)).drop (p0 :: ps).length = rest := by
      simp only [List.length_cons, List.drop_succ_cons]
      exact List.drop_left ps rest
    rw [h3]

/-- A character map that fixes every member fixes the list. -/
theorem map_dash_id {l : List Char} (h : '-' ∉ l) :
    l.map (fun x => if x = '-' then '_' else x) = l := by
  induction l with
  | nil => rfl
  | cons x rest ih =>
    have hx : x ≠ '-' := fun he => h (he ▸ List.mem_cons_self x rest)
    simp only [List.map_cons, if_neg hx]
    rw [ih (fun hm => h (List.mem_cons_of_mem x hm))]

/-- The `_class_` → `_class-` pass on `ats_class_…` when the tail is
pattern-free: exactly the leading token is rewritten back to a dash. -/
theorem replace_class_core (rest : List Char)
    (hno : containsSub rest (("_class_" : String).data) = false) :
    ∀ fuel : Nat, rest.length + 10 < fuel →
      replaceFuel ("_class_" : String).data ("_class-" : String).data fuel
        ('a' :: 't' :: 's' :: (("_class_" : String).data ++ rest)) =
      'a' :: 't' :: 's' :: (("_class-" : String).data ++ rest) := by
  have hpat : ("_class_" : String).data = ['_', 'c', 'l', 'a', 's', 's', '_'] := by decide
  intro fuel h
  rw [hpat] at hno ⊢
  obtain ⟨f1, rfl⟩ : ∃ k, fuel = k + 1 := ⟨fuel - 1, by omega⟩
  rw [replaceFuel_cons_ne _ (isPrefixOf_cons_ne _ _ (by decide)) f1]
  obtain ⟨f2, rfl⟩ : ∃ k, f1 = k + 1 := ⟨f1 - 1, by omega⟩
  rw [replaceFuel_cons_ne _ (isPrefixOf_cons_ne _ _ (by decide)) f2]
  obtain ⟨f3, rfl⟩ : ∃ k, f2 = k + 1 := ⟨f2 - 1, by omega⟩
  rw [replaceFuel_cons_ne _ (isPrefixOf_cons_ne _ _ (by decide)) f3]
  obtain ⟨f4, rfl⟩ : ∃ k, f3 = k + 1 := ⟨f3 - 1, by omega⟩
  rw [replaceFuel_match (by decide) _ rest f4]
  rw [replaceFuel_no_occ _ rest hno f4 (by omega)]

/-- C8 counterexample: the requirement anchor for profile `water_gauge` and
local id `collection-water-gauge` keeps its dashes (only `/` is replaced),
contradicting the claimed dash normalization. -/
theorem claim_C8_counterexample :
    requirement_anchor "water_gauge" "collection-water-gauge" =
      "req_water_gauge_collection-water-gauge" ∧
    requirement_anchor "water_gauge" "collection-water-gauge" ≠
      "req_water_gauge_collection_water_gauge" := by
  constructor
  · decide
  · decide

/-- C8 (amended): the requirement anchor `req_{profile}_{id}` and test
anchor `ats_{profile}_{id}` replace exactly the path separators `/` by
underscores (dashes survive); the requirements-class anchor
`req_class_{profile}_{class}` replaces exactly the dashes (path separators
survive); the conformance-class anchor replaces every dash by an underscore
and then every `_class_` by `_class-`, which — whenever profile and class
name contain no dash and no `_class_` pattern — yields
`ats_class-{profile}_{class}` with exactly one dash, after the `class`
token. -/
theorem claim_C8_anchor_rules (p i cl : String)
    (hd : '-' ∉ ((p ++ "_" ++ cl) : String).data)
    (hcl : containsSub ((p ++ "_" ++ cl) : String).data (("_class_" : String).data) = false) :
    (requirement_anchor p i).data =
      (("req_" ++ p ++ "_" ++ i) : String).data.map
        (fun ch => if ch = '/' then '_' else ch) ∧
    (abstract_test_anchor p i).data =
      (("ats_" ++ p ++ "_" ++ i) : String).data.map
        (fun ch => if ch = '/' then '_' else ch) ∧
    (requirements_class_anchor p cl).data =
      (("req_class_" ++ p ++ "_" ++ cl) : String).data.map
        (fun ch => if ch = '-' then '_' else ch) ∧
    conformance_class_anchor p cl = "ats_class-" ++ p ++ "_" ++ cl ∧
    (conformance_class_anchor p cl).data.count '-' = 1 := by
  have hconf : conformance_class_anchor p cl = "ats_class-" ++ p ++ "_" ++ cl := by
    unfold conformance_class_anchor
    have hsplit : (("ats_class-" ++ p ++ "_" ++ cl) : String).data =
        ("ats_class-" : String).data ++ ((p ++ "_" ++ cl) : String).data := by
      simp [String.data_append, List.append_assoc]
    set s1 := pyReplace ("ats_class-" ++ p ++ "_" ++ cl) "-" "_" with hs1
    have hinner : s1.data =
        'a' :: 't' :: 's' :: (("_class_" : String).data ++
          ((p ++ "_" ++ cl) : String).data) := by
      rw [hs1, pyReplace_single_data rfl rfl, hsplit, List.map_append, map_dash_id hd]
      have h9 : (("ats_class-" : String).data.map
          (fun x => if x = '-' then '_' else x)) =
          'a' :: 't' :: 's' :: ("_class_" : String).data := by decide
      rw [h9]
      rfl
    have hout : (("ats_class-" ++ p ++ "_" ++ cl) : String).data =
        'a' :: 't' :: 's' :: (("_class-" : String).data ++
          ((p ++ "_" ++ cl) : String).data) := by
      rw [hsplit]
      have h10 : ("ats_class-" : String).data =
          'a' :: 't' :: 's' :: ("_class-" : String).data := by decide
      rw [h10]
      rfl
    apply String.ext
    show replaceFuel ("_class_" : String).data ("_class-" : String).data
        (s1.data.length + 1) s1.data = _
    rw [hinner]
    rw [replace_class_core _ hcl _ (by
      simp only [List.length_cons, List.length_append]
      have h7 : ("_class_" : String).data.length = 7 := by decide
      omega)]
    rw [hout]
  refine ⟨pyReplace_single_data rfl rfl _, pyReplace_single_data rfl rfl _,
    pyReplace_single_data rfl rfl _, hconf, ?_⟩
  rw [hconf]
  have hsplit : (("ats_class-" ++ p ++ "_" ++ cl) : String).data =
      ("ats_class-" : String).data ++ ((p ++ "_" ++ cl) : String).data := by
    simp [String.data_append, List.append_assoc]
  rw [hsplit, List.count_append]
  have h1 : ("ats_class-" : String).data.count '-' = 1 := by decide
  have h2 : ((p ++ "_" ++ cl) : String).data.count '-' = 0 := List.count_eq_zero.mpr hd
  omega

/-- Witness for C8 with profile `water_gauge` and class `core`. -/
theorem claim_C8_witness :
    conformance_class_anchor "water_gauge" "core" = "ats_class-water_gauge_core" ∧
    (conformance_class_anchor "water_gauge" "core").data.count '-' = 1 := by
  have h := claim_C8_anchor_rules "water_gauge" "openapi" "core" (by decide) (by decide)
  exact ⟨h.2.2.2.1, h.2.2.2.2⟩

/-! ## Claim C9: fail-fast on malformed configuration -/

/-- C9 counterexample: a configuration whose single collection lacks its
`formats` field is only detected at section generation, after the
directories, the requirement file, both class files, the test file, the
OpenAPI description and the main document have already been written — a
partially-consistent bundle, where the claim demanded failure before any
artifact. -/
theorem claim_C9_counterexample :
    mainRun ⟨some "p", some "t", some [⟨some "c", some ["items"], none⟩], some [],
        some [], some false, some [⟨some "r1", some "s", some []⟩],
        some [⟨some "r1", some "r1", some []⟩]⟩ =
      ([Artifact.directories, Artifact.requirementFile "r1",
        Artifact.requirementsClassFile, Artifact.abstractTestFile "r1",
        Artifact.conformanceClassFile, Artifact.openapiFile, Artifact.mainAdocFile],
       some "KeyError in create_sections") ∧
    (mainRun ⟨some "p", some "t", some [⟨some "c", some ["items"], none⟩], some [],
        some [], some false, some [⟨some "r1", some "s", some []⟩],
        some [⟨some "r1", some "r1", some []⟩]⟩).1 ≠ [] := by
  constructor
  · decide
  · decide

/-- C9 (amended): a configuration missing a required top-level field fails
before any artifact is emitted, but a record-level missing field (such as a
collection without `query_types` or `formats`) fails only partway through
generation, after earlier artifacts of the bundle have been written. -/
theorem claim_C9_failfast (cfg : ConfigDoc)
    (h : (cfg.profile_name.isNone || cfg.profile_title.isNone ||
        cfg.collections.isNone || cfg.properties.isNone || cfg.filters.isNone ||
        cfg.include_asyncapi.isNone || cfg.requirements.isNone ||
        cfg.tests.isNone) = true) :
    ((mainRun cfg).1 = [] ∧ (mainRun cfg).2.isSome = true) ∧
    mainRun ⟨some "p", some "t", some [⟨some "c", none, some ["GeoJSON"]⟩], some [],
        some [], some false, some [⟨some "r1", some "s", some []⟩],
        some [⟨some "r1", some "r1", some []⟩]⟩ =
      ([Artifact.directories, Artifact.requirementFile "r1",
        Artifact.requirementsClassFile, Artifact.abstractTestFile "r1",
        Artifact.conformanceClassFile], some "KeyError in create_openapi") := by
  constructor
  · obtain ⟨f1, f2, f3, f4, f5, f6, f7, f8⟩ := cfg
    cases f1 <;> cases f2 <;> cases f3 <;> cases f4 <;> cases f5 <;> cases f6 <;>
      cases f7 <;> cases f8 <;> simp_all [mainRun]
  · decide

/-- Witness for C9 at a configuration missing its `tests` key. -/
theorem claim_C9_witness :
    (mainRun ⟨some "p", some "t", some [], some [], some [], some false, some [],
        none⟩).1 = [] ∧
    (mainRun ⟨some "p", some "t", some [], some [], some [], some false, some [],
        none⟩).2.isSome = true :=
  (claim_C9_failfast ⟨some "p", some "t", some [], some [], some [], some false,
    some [], none⟩ (by decide)).1

end OgcEdr
